import Mathlib

/- Formal model of the event-ingestion core of the commerce analytics platform:
   idempotency-key derivation and parsing (app/core/idempotency.py), the
   EventRecord state machine (app/models/event.py), the retry-selection query
   (app/repositories/event_repository.py) and the retry/backoff constants
   (app/core/constants.py).  Python strings are modelled as lists of
   characters, Python exceptions as the Except monad, and datetimes as a
   record of numeric fields.  ValidationException is modelled by its message
   string. -/

abbrev PyStr := List Char

/-- Python whitespace test for the ASCII range (space, tab, newline, carriage
return, vertical tab, form feed), as used by str.strip(). -/
def pyIsSpace (c : Char) : Bool :=
  c == ' ' || c == '\t' || c == '\n' || c == '\r' || c.toNat == 11 || c.toNat == 12

/-- Model of Python str.strip() with no arguments (ASCII whitespace). -/
def pyStrip (l : PyStr) : PyStr :=
  ((l.dropWhile pyIsSpace).reverse.dropWhile pyIsSpace).reverse

/-- Model of Python str.split on a single colon separator: "".split returns
one empty field, and every colon separates two (possibly empty) fields. -/
def splitColon : PyStr → List PyStr
  | [] => [[]]
  | c :: rest =>
    if c = ':' then [] :: splitColon rest
    else (c :: (splitColon rest).headD []) :: (splitColon rest).tail

/-- Model of Python str.join with a colon separator. -/
def joinColon : List PyStr → PyStr
  | [] => []
  | [x] => x
  | x :: y :: xs => x ++ ':' :: joinColon (y :: xs)

/-- Predicate: the string contains no colon. -/
abbrev noColon (l : PyStr) : Prop := ∀ c ∈ l, c ≠ ':'

theorem splitColon_ne_nil (l : PyStr) : splitColon l ≠ [] := by
  cases l with
  | nil => simp [splitColon]
  | cons c rest =>
    simp only [splitColon]
    split <;> simp

theorem splitColon_no_colon (l : PyStr) (h : noColon l) : splitColon l = [l] := by
  induction l with
  | nil => rfl
  | cons c rest ih =>
    have hc : c ≠ ':' := h c (List.mem_cons_self c rest)
    have hr := ih (fun d hd => h d (List.mem_cons_of_mem c hd))
    simp [splitColon, hc, hr]

theorem splitColon_append_seg (xs ys : PyStr) (h : noColon xs) :
    splitColon (xs ++ ':' :: ys) = xs :: splitColon ys := by
  induction xs with
  | nil => simp [splitColon]
  | cons c rest ih =>
    have hc : c ≠ ':' := h c (List.mem_cons_self c rest)
    have hr := ih (fun d hd => h d (List.mem_cons_of_mem c hd))
    simp [splitColon, hc, hr]

theorem splitColon_append_last (a tl : PyStr) (htl : noColon tl) :
    splitColon (a ++ ':' :: tl) = splitColon a ++ [tl] := by
  induction a with
  | nil => simp [splitColon, splitColon_no_colon tl htl]
  | cons c rest ih =>
    by_cases hc : c = ':'
    · subst hc
      simp [splitColon, ih]
    · cases hsp : splitColon rest with
      | nil => exact absurd hsp (splitColon_ne_nil rest)
      | cons p ps =>
        have ih2 := ih
        rw [hsp] at ih2
        simp [splitColon, hc, ih2, hsp]

theorem joinColon_splitColon (l : PyStr) : joinColon (splitColon l) = l := by
  induction l with
  | nil => rfl
  | cons c rest ih =>
    by_cases hc : c = ':'
    · subst hc
      cases hsp : splitColon rest with
      | nil => exact absurd hsp (splitColon_ne_nil rest)
      | cons p ps =>
        rw [hsp] at ih
        simp only [splitColon, if_pos rfl]
        rw [hsp]
        simp only [joinColon, List.nil_append]
        rw [ih]
    · cases hsp : splitColon rest with
      | nil => exact absurd hsp (splitColon_ne_nil rest)
      | cons p ps =>
        rw [hsp] at ih
        simp only [splitColon, if_neg hc]
        rw [hsp]
        cases ps with
        | nil =>
          simp only [joinColon] at ih
          simp only [List.headD_cons, List.tail_cons, joinColon]
          rw [ih]
        | cons q qs =>
          simp only [joinColon] at ih
          simp only [List.headD_cons, List.tail_cons, joinColon, List.cons_append]
          rw [ih]

theorem getLastD_append_single {α : Type} (l : List α) (x d : α) :
    (l ++ [x]).getLastD d = x := by
  induction l generalizing d with
  | nil => rfl
  | cons c cs ih => simp only [List.cons_append, List.getLastD_cons]; exact ih c

theorem dropLast_append_single {α : Type} (l : List α) (x : α) :
    (l ++ [x]).dropLast = l := by
  induction l with
  | nil => rfl
  | cons c cs ih =>
    cases cs with
    | nil => rfl
    | cons d ds => simp [List.dropLast, ih]

/-- Decimal digit character for a value below ten. -/
def digitChar (n : Nat) : Char := Char.ofNat (48 + n)

/-- Fuel-driven digit rendering; the fuel only forces structural recursion
and never runs out when it starts at least one above the number. -/
def natToDecGo : Nat → Nat → PyStr
  | 0, _ => []
  | fuel + 1, n =>
    if n < 10 then [digitChar n]
    else natToDecGo fuel (n / 10) ++ [digitChar (n % 10)]

/-- Model of Python str(n) for a natural number: decimal digits. -/
def natToDec (n : Nat) : PyStr := natToDecGo (n + 1) n

theorem natToDecGo_fuel (fuel1 : Nat) :
    ∀ fuel2 n, n < fuel1 → n < fuel2 → natToDecGo fuel1 n = natToDecGo fuel2 n := by
  induction fuel1 with
  | zero => intro fuel2 n h1 _; omega
  | succ f ih =>
    intro fuel2 n h1 h2
    cases fuel2 with
    | zero => omega
    | succ f2 =>
      simp only [natToDecGo]
      by_cases h10 : n < 10
      · simp [h10]
      · simp only [if_neg h10]
        have hdiv : n / 10 < n := Nat.div_lt_self (by omega) (by omega)
        rw [ih f2 (n / 10) (by omega) (by omega)]

/-- The defining recurrence of natToDec, with the fuel eliminated. -/
theorem natToDec_eq (n : Nat) :
    natToDec n = if n < 10 then [digitChar n]
                 else natToDec (n / 10) ++ [digitChar (n % 10)] := by
  unfold natToDec
  simp only [natToDecGo]
  by_cases h10 : n < 10
  · simp [h10]
  · simp only [if_neg h10]
    have hdiv : n / 10 < n := Nat.div_lt_self (by omega) (by omega)
    rw [natToDecGo_fuel n (n / 10 + 1) (n / 10) (by omega) (by omega)]
    rfl

/-- Model of Python str(i) for an integer: optional minus sign then digits. -/
def intToDec (i : Int) : PyStr :=
  if i < 0 then '-' :: natToDec (-i).toNat else natToDec i.toNat

/-- Numeric value of a decimal digit character. -/
def digitVal (c : Char) : Nat := c.toNat - 48

/-- Digit-run parser for Python int(): after a first digit, further digits may
be separated by single underscores; anything else rejects.  The flag records
whether the previous character was a digit (an underscore is legal only
between two digits, so it may not follow an underscore or end the run). -/
def parseDigitsGo : PyStr → Bool → Nat → Option Nat
  | [], afterDigit, acc => if afterDigit then some acc else none
  | c :: rest, afterDigit, acc =>
    if c.isDigit then parseDigitsGo rest true (10 * acc + digitVal c)
    else if c = '_' && afterDigit then parseDigitsGo rest false acc
    else none

/-- Unsigned body of Python int(): a digit run starting with a digit. -/
def pythonNatCore (l : PyStr) : Option Nat :=
  match l with
  | [] => none
  | c :: rest => if c.isDigit then parseDigitsGo rest true (digitVal c) else none

/-- Model of Python int(str) on the ASCII fragment: strips whitespace, allows
one optional sign, then a digit run with optional single underscores between
digits; None models ValueError. -/
def pythonIntOpt (s : PyStr) : Option Int :=
  match pyStrip s with
  | [] => none
  | c :: rest =>
    if c = '-' then (pythonNatCore rest).map (fun n => -(n : Int))
    else if c = '+' then (pythonNatCore rest).map (fun n => (n : Int))
    else (pythonNatCore (c :: rest)).map (fun n => (n : Int))

theorem digitChar_isDigit : ∀ k, k < 10 → (digitChar k).isDigit = true := by decide

theorem digitVal_digitChar : ∀ k, k < 10 → digitVal (digitChar k) = k := by decide

theorem digitChar_ne_colon : ∀ k, k < 10 → digitChar k ≠ ':' := by decide

theorem digitChar_ne_minus : ∀ k, k < 10 → digitChar k ≠ '-' := by decide

theorem digitChar_ne_plus : ∀ k, k < 10 → digitChar k ≠ '+' := by decide

theorem digitChar_not_space : ∀ k, k < 10 → pyIsSpace (digitChar k) = false := by decide

theorem natToDec_chars (n : Nat) : ∀ c ∈ natToDec n, ∃ k, k < 10 ∧ c = digitChar k := by
  induction n using Nat.strong_induction_on with
  | _ n ih =>
    rw [natToDec_eq]
    split
    · intro c hc
      simp only [List.mem_singleton] at hc
      exact ⟨n, by omega, hc⟩
    · intro c hc
      rcases List.mem_append.mp hc with hleft | hright
      · exact ih (n / 10) (Nat.div_lt_self (by omega) (by omega)) c hleft
      · simp only [List.mem_singleton] at hright
        exact ⟨n % 10, Nat.mod_lt _ (by omega), hright⟩

theorem natToDec_ne_nil (n : Nat) : natToDec n ≠ [] := by
  rw [natToDec_eq]
  split
  · simp
  · simp

/-- Accumulated decimal value of a digit string. -/
def decFold (l : PyStr) (acc : Nat) : Nat :=
  l.foldl (fun a c => 10 * a + digitVal c) acc

theorem decFold_natToDec (n : Nat) :
    ∀ acc, decFold (natToDec n) acc = acc * 10 ^ (natToDec n).length + n := by
  induction n using Nat.strong_induction_on with
  | _ n ih =>
    intro acc
    rw [natToDec_eq]
    split
    · simp only [decFold, List.foldl_cons, List.foldl_nil, List.length_singleton]
      rw [digitVal_digitChar n (by omega)]
      ring
    · have hdiv := ih (n / 10) (Nat.div_lt_self (by omega) (by omega))
      simp only [decFold, List.foldl_append, List.foldl_cons, List.foldl_nil,
        List.length_append, List.length_singleton]
      rw [digitVal_digitChar (n % 10) (Nat.mod_lt _ (by omega))]
      have h1 : (natToDec (n / 10)).foldl (fun a c => 10 * a + digitVal c) acc =
          acc * 10 ^ (natToDec (n / 10)).length + n / 10 := hdiv acc
      rw [h1, pow_succ]
      have h2 := Nat.div_add_mod n 10
      set L := (natToDec (n / 10)).length
      ring_nf
      omega

theorem parseDigitsGo_digits (l : PyStr) (hl : ∀ c ∈ l, c.isDigit = true) :
    ∀ acc, parseDigitsGo l true acc = some (decFold l acc) := by
  induction l with
  | nil => intro acc; rfl
  | cons c rest ih =>
    intro acc
    have hc : c.isDigit = true := hl c (List.mem_cons_self c rest)
    have hrest := ih (fun d hd => hl d (List.mem_cons_of_mem c hd))
    have hstep : parseDigitsGo (c :: rest) true acc =
        if c.isDigit then parseDigitsGo rest true (10 * acc + digitVal c)
        else if c = '_' && true then parseDigitsGo rest false acc
        else none := rfl
    rw [hstep, if_pos hc, hrest]
    rfl

theorem pythonNatCore_natToDec (n : Nat) : pythonNatCore (natToDec n) = some n := by
  have hchars := natToDec_chars n
  have hval := decFold_natToDec n 0
  cases hsl : natToDec n with
  | nil => exact absurd hsl (natToDec_ne_nil n)
  | cons c rest =>
    rw [hsl] at hchars hval
    obtain ⟨k, hk, hck⟩ := hchars c (List.mem_cons_self c rest)
    have hcdig : c.isDigit = true := by rw [hck]; exact digitChar_isDigit k hk
    have hrestdig : ∀ d ∈ rest, d.isDigit = true := by
      intro d hd
      obtain ⟨m, hm, hdm⟩ := hchars d (List.mem_cons_of_mem c hd)
      rw [hdm]; exact digitChar_isDigit m hm
    simp only [pythonNatCore, hcdig, if_pos]
    rw [parseDigitsGo_digits rest hrestdig]
    simp only [decFold, List.foldl_cons, List.foldl_nil] at hval ⊢
    simp only [Nat.zero_mul, Nat.zero_add, Nat.mul_zero] at hval
    rw [hval]

theorem dropWhile_all_false {α : Type} (p : α → Bool) (l : List α)
    (h : ∀ c ∈ l, p c = false) : l.dropWhile p = l := by
  cases l with
  | nil => rfl
  | cons c rest =>
    have hc := h c (List.mem_cons_self c rest)
    simp [List.dropWhile, hc]

theorem pyStrip_not_space (l : PyStr) (h : ∀ c ∈ l, pyIsSpace c = false) :
    pyStrip l = l := by
  unfold pyStrip
  rw [dropWhile_all_false pyIsSpace l h]
  rw [dropWhile_all_false pyIsSpace l.reverse (fun c hc => h c (List.mem_reverse.mp hc))]
  exact List.reverse_reverse l

theorem pythonIntOpt_natToDec (n : Nat) : pythonIntOpt (natToDec n) = some (n : Int) := by
  have hchars := natToDec_chars n
  have hstrip : pyStrip (natToDec n) = natToDec n := by
    refine pyStrip_not_space _ (fun c hc => ?_)
    obtain ⟨k, hk, hck⟩ := hchars c hc
    rw [hck]; exact digitChar_not_space k hk
  unfold pythonIntOpt
  rw [hstrip]
  cases hsl : natToDec n with
  | nil => exact absurd hsl (natToDec_ne_nil n)
  | cons c rest =>
    rw [hsl] at hchars
    obtain ⟨k, hk, hck⟩ := hchars c (List.mem_cons_self c rest)
    have h1 : ¬(c = '-') := by rw [hck]; exact digitChar_ne_minus k hk
    have h2 : ¬(c = '+') := by rw [hck]; exact digitChar_ne_plus k hk
    simp only [h1, h2, if_false]
    rw [← hsl, pythonNatCore_natToDec n]
    rfl

theorem natToDec_no_colon (n : Nat) : noColon (natToDec n) := by
  intro c hc
  obtain ⟨k, hk, hck⟩ := natToDec_chars n c hc
  rw [hck]; exact digitChar_ne_colon k hk

theorem intToDec_pos (t : Int) (ht : 0 < t) : intToDec t = natToDec t.toNat := by
  unfold intToDec
  rw [if_neg (by omega)]

theorem intToDec_no_colon_pos (t : Int) (ht : 0 < t) : noColon (intToDec t) := by
  rw [intToDec_pos t ht]
  exact natToDec_no_colon t.toNat

theorem pythonIntOpt_intToDec_pos (t : Int) (ht : 0 < t) :
    pythonIntOpt (intToDec t) = some t := by
  rw [intToDec_pos t ht, pythonIntOpt_natToDec]
  congr 1
  omega

/-- Truncation of a natural number to a 32-bit word. -/
def w32 (n : Nat) : Nat := n % 4294967296

/-- Right rotation of a 32-bit word by b bits. -/
def rotr32 (b n : Nat) : Nat := w32 ((n >>> b) ||| (n <<< (32 - b)))

/-- SHA-256 small sigma 0. -/
def shaSigma0 (x : Nat) : Nat := (rotr32 7 x) ^^^ (rotr32 18 x) ^^^ (x >>> 3)

/-- SHA-256 small sigma 1. -/
def shaSigma1 (x : Nat) : Nat := (rotr32 17 x) ^^^ (rotr32 19 x) ^^^ (x >>> 10)

/-- SHA-256 big Sigma 0. -/
def shaBigSigma0 (x : Nat) : Nat := (rotr32 2 x) ^^^ (rotr32 13 x) ^^^ (rotr32 22 x)

/-- SHA-256 big Sigma 1. -/
def shaBigSigma1 (x : Nat) : Nat := (rotr32 6 x) ^^^ (rotr32 11 x) ^^^ (rotr32 25 x)

/-- SHA-256 choose function. -/
def shaCh (e f g : Nat) : Nat := (e &&& f) ^^^ ((e ^^^ 4294967295) &&& g)

/-- SHA-256 majority function. -/
def shaMaj (a b c : Nat) : Nat := (a &&& b) ^^^ (a &&& c) ^^^ (b &&& c)

/-- SHA-256 round constants (FIPS 180-4), written in decimal. -/
def shaK : List Nat :=
  [1116352408, 1899447441, 3049323471, 3921009573, 961987163,
   1508970993, 2453635748, 2870763221, 3624381080, 310598401,
   607225278, 1426881987, 1925078388, 2162078206, 2614888103,
   3248222580, 3835390401, 4022224774, 264347078, 604807628,
   770255983, 1249150122, 1555081692, 1996064986, 2554220882,
   2821834349, 2952996808, 3210313671, 3336571891, 3584528711,
   113926993, 338241895, 666307205, 773529912, 1294757372,
   1396182291, 1695183700, 1986661051, 2177026350, 2456956037,
   2730485921, 2820302411, 3259730800, 3345764771, 3516065817,
   3600352804, 4094571909, 275423344, 430227734, 506948616,
   659060556, 883997877, 958139571, 1322822218, 1537002063,
   1747873779, 1955562222, 2024104815, 2227730452, 2361852424,
   2428436474, 2756734187, 3204031479, 3329325298]

/-- SHA-256 initial hash words (FIPS 180-4), written in decimal. -/
def shaH0 : List Nat :=
  [1779033703, 3144134277, 1013904242, 2773480762,
   1359893119, 2600822924, 528734635, 1541459225]

/-- Big-endian byte rendering of a number on a fixed number of bytes. -/
def toBytesBE : Nat → Nat → List Nat
  | 0, _ => []
  | k + 1, n => toBytesBE k (n / 256) ++ [n % 256]

/-- SHA-256 padding: append the byte 0x80, zero bytes up to 56 mod 64, then
the bit length on eight big-endian bytes. -/
def padMessage (msg : List Nat) : List Nat :=
  let L := msg.length
  let z := (119 - L % 64) % 64
  msg ++ 128 :: (List.replicate z 0 ++ toBytesBE 8 (8 * L))

/-- The sixteen big-endian 32-bit words of a 64-byte block. -/
def wordsOfBlock (block : List Nat) : List Nat :=
  (List.range 16).map (fun i =>
    (block.getD (4 * i) 0) * 16777216 + (block.getD (4 * i + 1) 0) * 65536 +
    (block.getD (4 * i + 2) 0) * 256 + block.getD (4 * i + 3) 0)

/-- Message-schedule extension; the accumulator holds the words produced so
far, most recent first. -/
def extendWords : Nat → List Nat → List Nat
  | 0, acc => acc
  | k + 1, acc =>
    extendWords k
      ((w32 (acc.getD 15 0 + shaSigma0 (acc.getD 14 0) + acc.getD 6 0 +
        shaSigma1 (acc.getD 1 0))) :: acc)

/-- The 64 words of the SHA-256 message schedule of one block. -/
def messageSchedule (block : List Nat) : List Nat :=
  (extendWords 48 (wordsOfBlock block).reverse).reverse

/-- One SHA-256 compression round; the state is the eight working words. -/
def compressStep (st : List Nat) (kw : Nat × Nat) : List Nat :=
  match st with
  | [a, b, c, d, e, f, g, h] =>
    let t1 := w32 (h + shaBigSigma1 e + shaCh e f g + kw.1 + kw.2)
    let t2 := w32 (shaBigSigma0 a + shaMaj a b c)
    [w32 (t1 + t2), a, b, c, w32 (d + t1), e, f, g]
  | other => other

/-- SHA-256 compression of one 64-byte block into the chaining hash words. -/
def compressBlock (hs : List Nat) (block : List Nat) : List Nat :=
  let fin := (shaK.zip (messageSchedule block)).foldl compressStep hs
  List.zipWith (fun x y => w32 (x + y)) hs fin

/-- Fold the compression over consecutive 64-byte blocks; the fuel only
forces structural recursion and never runs out when it starts at the byte
count, since every step consumes a nonempty prefix. -/
def processBlocksGo : Nat → List Nat → List Nat → List Nat
  | _, hs, [] => hs
  | 0, hs, _ :: _ => hs
  | fuel + 1, hs, c :: rest =>
    processBlocksGo fuel (compressBlock hs ((c :: rest).take 64)) ((c :: rest).drop 64)

/-- The eight 32-bit words of the SHA-256 digest of a byte string. -/
def sha256WordsOf (msg : List Nat) : List Nat :=
  processBlocksGo (padMessage msg).length shaH0 (padMessage msg)

/-- Lowercase hexadecimal digit character. -/
def hexChar (n : Nat) : Char :=
  if n < 10 then Char.ofNat (48 + n) else Char.ofNat (87 + n)

/-- Fixed-width lowercase hexadecimal rendering. -/
def toHexFixed : Nat → Nat → PyStr
  | 0, _ => []
  | d + 1, n => toHexFixed d (n / 16) ++ [hexChar (n % 16)]

/-- Model of hashlib.sha256(...).hexdigest(): 64 lowercase hex characters. -/
def sha256hex (msg : List Nat) : PyStr :=
  (sha256WordsOf msg).foldr (fun wd acc => toHexFixed 8 wd ++ acc) []

/-- UTF-8 encoding of one character. -/
def utf8EncodeChar (c : Char) : List Nat :=
  let n := c.toNat
  if n < 128 then [n]
  else if n < 2048 then [192 + n / 64, 128 + n % 64]
  else if n < 65536 then [224 + n / 4096, 128 + (n / 64) % 64, 128 + n % 64]
  else [240 + n / 262144, 128 + (n / 4096) % 64, 128 + (n / 64) % 64, 128 + n % 64]

/-- Model of Python str.encode(): UTF-8 bytes of the string. -/
def utf8Encode (l : PyStr) : List Nat :=
  l.foldr (fun c acc => utf8EncodeChar c ++ acc) []

theorem hexChar_ne_colon : ∀ n, n < 16 → hexChar n ≠ ':' := by decide

theorem toHexFixed_no_colon (d : Nat) : ∀ n, noColon (toHexFixed d n) := by
  induction d with
  | zero => intro n c hc; simp [toHexFixed] at hc
  | succ d ih =>
    intro n c hc
    rcases List.mem_append.mp hc with hleft | hright
    · exact ih (n / 16) c hleft
    · simp only [List.mem_singleton] at hright
      rw [hright]
      exact hexChar_ne_colon (n % 16) (Nat.mod_lt _ (by omega))

theorem sha256hex_no_colon (msg : List Nat) : noColon (sha256hex msg) := by
  unfold sha256hex
  generalize sha256WordsOf msg = ws
  induction ws with
  | nil => intro c hc; simp at hc
  | cons wd rest ih =>
    intro c hc
    rcases List.mem_append.mp hc with hleft | hright
    · exact toHexFixed_no_colon 8 wd c hleft
    · exact ih c hright

theorem take_no_colon (l : PyStr) (n : Nat) (h : noColon l) : noColon (l.take n) :=
  fun c hc => h c (List.take_subset n l hc)

/-- Model of a Python datetime value (naive, microsecond resolution). -/
structure PyDatetime where
  year : Nat
  month : Nat
  day : Nat
  hour : Nat
  minute : Nat
  second : Nat
  microsecond : Nat := 0
  deriving DecidableEq, Repr

/-- Zero-padded fixed-width decimal rendering, as used by isoformat. -/
def padNum (width n : Nat) : PyStr :=
  List.replicate (width - (natToDec n).length) '0' ++ natToDec n

/-- Model of Python datetime.isoformat(): YYYY-MM-DDTHH:MM:SS with a
.ffffff suffix only when the microsecond field is nonzero. -/
def isoformat (t : PyDatetime) : PyStr :=
  padNum 4 t.year ++ '-' :: (padNum 2 t.month ++ '-' :: (padNum 2 t.day ++
  'T' :: (padNum 2 t.hour ++ ':' :: (padNum 2 t.minute ++ ':' :: (padNum 2 t.second ++
  (if t.microsecond = 0 then [] else '.' :: padNum 6 t.microsecond))))))

/-- Model of app.core.idempotency.generate_idempotency_key: validates the
inputs, then builds tenant:entity_type:entity_id:event_type:hash where hash
is the first 16 hex characters of the SHA-256 of
tenant:entity_id:event_type:isoformat-timestamp.  The error value carries the
ValidationException message. -/
def generate_idempotency_key (tenant_id : Int) (entity_type entity_id event_type : PyStr)
    (timestamp : PyDatetime) : Except PyStr PyStr :=
  if tenant_id ≤ 0 then Except.error "tenant_id must be positive".data
  else if entity_type = [] ∨ pyStrip entity_type = [] then
    Except.error "entity_type cannot be empty".data
  else if entity_id = [] ∨ pyStrip entity_id = [] then
    Except.error "entity_id cannot be empty".data
  else if event_type = [] ∨ pyStrip event_type = [] then
    Except.error "event_type cannot be empty".data
  else
    let timestamp_str := isoformat timestamp
    let hash_input := intToDec tenant_id ++ ':' :: (entity_id ++ ':' :: (event_type ++
      ':' :: timestamp_str))
    let hash_digest := sha256hex (utf8Encode hash_input)
    let hash_short := hash_digest.take 16
    Except.ok (intToDec tenant_id ++ ':' :: (entity_type ++ ':' :: (entity_id ++
      ':' :: (event_type ++ ':' :: hash_short))))

/-- Model of app.core.idempotency.generate_simple_idempotency_key: the source
performs no validation and cannot raise, so the model returns a plain string:
tenant:entity_type:entity_id:event_type. -/
def generate_simple_idempotency_key (tenant_id : Int)
    (entity_type entity_id event_type : PyStr) : PyStr :=
  intToDec tenant_id ++ ':' :: (entity_type ++ ':' :: (entity_id ++ ':' :: event_type))

/-- Components of a parsed idempotency key. -/
structure ParsedKey where
  tenant_id : Int
  entity_type : PyStr
  entity_id : PyStr
  event_type : PyStr
  hash : Option PyStr
  deriving DecidableEq, Repr

/-- Model of app.core.idempotency.parse_idempotency_key: split on colons,
require at least four parts, parse the tenant segment with int(); with more
than four parts the last is the hash and parts 3..-2 are rejoined as the
event type, otherwise the hash is null. -/
def parse_idempotency_key (key : PyStr) : Except PyStr ParsedKey :=
  let parts := splitColon key
  if parts.length < 4 then
    Except.error ("Invalid idempotency key format: ".data ++ key)
  else
    match pythonIntOpt (parts.getD 0 []) with
    | none => Except.error ("Invalid tenant_id in key: ".data ++ parts.getD 0 [])
    | some tid =>
      if parts.length > 4 then
        Except.ok ⟨tid, parts.getD 1 [], parts.getD 2 [],
          joinColon ((parts.drop 3).dropLast), some (parts.getLastD [])⟩
      else
        Except.ok ⟨tid, parts.getD 1 [], parts.getD 2 [], parts.getD 3 [], none⟩

/-- Model of app.core.idempotency.validate_idempotency_key: true iff parsing
does not raise. -/
def validate_idempotency_key (key : PyStr) : Bool :=
  match parse_idempotency_key key with
  | Except.ok _ => true
  | Except.error _ => false

/-- Event processing status (app.models.event.EventStatus). -/
inductive EventStatus where
  | pending
  | processing
  | completed
  | failed
  | dead_letter
  deriving DecidableEq, Repr

/-- Model of the Event record (app.models.event.Event): the columns touched
by the state-machine helpers, with datetimes as abstract ticks. -/
structure Event where
  tenant_id : Int
  event_type : PyStr
  entity_type : PyStr
  entity_id : PyStr
  idempotency_key : PyStr
  payload : PyStr
  status : EventStatus
  received_at : Nat
  processed_at : Option Nat
  retry_count : Nat
  error_message : Option PyStr
  correlation_id : Option PyStr
  deriving DecidableEq, Repr

/-- Model of Event.mark_as_processing: unconditionally sets the status. -/
def mark_as_processing (e : Event) : Event :=
  { e with status := EventStatus.processing }

/-- Model of Event.mark_as_completed: sets the status and processed_at, with
the current time passed explicitly for datetime.utcnow(). -/
def mark_as_completed (e : Event) (now : Nat) : Event :=
  { e with status := EventStatus.completed, processed_at := some now }

/-- Model of Event.mark_as_failed: increments retry_count, records the error
message, then moves to dead_letter (setting processed_at to now) when the new
retry_count reaches max_retries, else to failed. -/
def mark_as_failed (e : Event) (error_message : PyStr) (max_retries : Nat) (now : Nat) :
    Event :=
  let rc := e.retry_count + 1
  if rc ≥ max_retries then
    { e with retry_count := rc, error_message := some error_message,
             status := EventStatus.dead_letter, processed_at := some now }
  else
    { e with retry_count := rc, error_message := some error_message,
             status := EventStatus.failed }

/-- Model of Event.reset_for_retry: only a failed event is moved back to
pending with its error message cleared; any other record is left unchanged. -/
def reset_for_retry (e : Event) : Event :=
  if e.status = EventStatus.failed then
    { e with status := EventStatus.pending, error_message := none }
  else e

/-- Model of Event.is_retriable. -/
def event_is_retriable (e : Event) : Bool := e.status == EventStatus.failed

/-- Model of Event.is_terminal. -/
def event_is_terminal (e : Event) : Bool :=
  e.status == EventStatus.completed || e.status == EventStatus.dead_letter

/-- Ordering of events by received_at, the ORDER BY of the retry query. -/
def eventOrder (a b : Event) : Prop := a.received_at ≤ b.received_at

instance : DecidableRel eventOrder := fun a b => Nat.decLe a.received_at b.received_at

instance : IsTotal Event eventOrder := ⟨fun a b => Nat.le_total a.received_at b.received_at⟩

instance : IsTrans Event eventOrder := ⟨fun _ _ _ hab hbc => Nat.le_trans hab hbc⟩

/-- Model of EventRepository.get_failed_retriable_events: the table is a list
of rows; the query filters status == failed and retry_count < max_retries and
sorts ascending by received_at. -/
def get_failed_retriable_events (events : List Event) (max_retries : Nat) : List Event :=
  List.insertionSort eventOrder
    (events.filter (fun e => e.status == EventStatus.failed &&
      decide (e.retry_count < max_retries)))

/-- Constant MAX_RETRY_ATTEMPTS from app/core/constants.py. -/
def MAX_RETRY_ATTEMPTS : Nat := 5

/-- Constant RETRY_BASE_DELAY_SECONDS from app/core/constants.py. -/
def RETRY_BASE_DELAY_SECONDS : Nat := 5

/-- Constant RETRY_MAX_DELAY_SECONDS from app/core/constants.py. -/
def RETRY_MAX_DELAY_SECONDS : Nat := 300

/-- Modelled from the spec: the RetryScheduler component is not part of the
reviewed sources (src only defines its constants in app/core/constants.py);
the spec defines its backoff as delay = min(base_delay * 2 ^ retry_count,
max_delay) with base 5 seconds and ceiling 300 seconds. -/
def calculate_backoff (retry_count : Nat) : Nat :=
  min (RETRY_BASE_DELAY_SECONDS * 2 ^ retry_count) RETRY_MAX_DELAY_SECONDS

/-- Example timestamp 2024-12-03T10:30:00 from the spec scenarios. -/
def dtEx : PyDatetime := ⟨2024, 12, 3, 10, 30, 0, 0⟩

/-- Example timestamp 2024-12-03T10:31:00 from the spec scenarios. -/
def dtEx2 : PyDatetime := ⟨2024, 12, 3, 10, 31, 0, 0⟩

/-- Example event of the spec failure scenario: a processing record with four
failed attempts already recorded. -/
def evRetry4 : Event :=
  ⟨1, "orders/create".data, "order".data, "12345".data, "k1".data, [],
   EventStatus.processing, 0, none, 4, none, none⟩

/-- Example completed (terminal) event. -/
def evCompleted : Event :=
  ⟨1, "orders/create".data, "order".data, "12345".data, "k2".data, [],
   EventStatus.completed, 0, some 3, 0, none, none⟩

/-- Example dead-letter (terminal) event. -/
def evDead : Event :=
  ⟨1, "orders/create".data, "order".data, "12345".data, "k3".data, [],
   EventStatus.dead_letter, 1, some 9, 5, some "boom".data, none⟩

/-- Example failed event with budget left, received at tick 7. -/
def evFailed7 : Event :=
  ⟨1, "orders/update".data, "order".data, "77".data, "k4".data, [],
   EventStatus.failed, 7, none, 2, some "timeout".data, none⟩

/-- Example failed event with budget left, received at tick 2. -/
def evFailed2 : Event :=
  ⟨1, "orders/update".data, "order".data, "22".data, "k5".data, [],
   EventStatus.failed, 2, none, 1, some "timeout".data, none⟩

/-- Example failed event whose retry budget is exhausted. -/
def evFailedMax : Event :=
  ⟨1, "orders/update".data, "order".data, "99".data, "k6".data, [],
   EventStatus.failed, 3, none, 5, some "timeout".data, none⟩

theorem parse_err_short (key : PyStr) (hlen : (splitColon key).length < 4) :
    parse_idempotency_key key =
      Except.error ("Invalid idempotency key format: ".data ++ key) := by
  simp only [parse_idempotency_key]
  rw [if_pos hlen]

theorem parse_err_badint (key : PyStr) (hlen : ¬ (splitColon key).length < 4)
    (ht : pythonIntOpt ((splitColon key).getD 0 []) = none) :
    parse_idempotency_key key =
      Except.error ("Invalid tenant_id in key: ".data ++ (splitColon key).getD 0 []) := by
  simp only [parse_idempotency_key]
  rw [if_neg hlen, ht]

theorem parse_eq_of_long (key : PyStr) (t : Int)
    (hlen : 4 < (splitColon key).length)
    (ht : pythonIntOpt ((splitColon key).getD 0 []) = some t) :
    parse_idempotency_key key = Except.ok ⟨t, (splitColon key).getD 1 [],
      (splitColon key).getD 2 [], joinColon (((splitColon key).drop 3).dropLast),
      some ((splitColon key).getLastD [])⟩ := by
  simp only [parse_idempotency_key]
  rw [if_neg (by omega), ht]
  simp only []
  rw [if_pos hlen]

theorem parse_eq_of_four (key : PyStr) (t : Int)
    (hlen : (splitColon key).length = 4)
    (ht : pythonIntOpt ((splitColon key).getD 0 []) = some t) :
    parse_idempotency_key key = Except.ok ⟨t, (splitColon key).getD 1 [],
      (splitColon key).getD 2 [], (splitColon key).getD 3 [], none⟩ := by
  simp only [parse_idempotency_key]
  rw [if_neg (by omega), ht]
  simp only []
  rw [if_neg (by omega)]

theorem validate_iff_parse_ok (key : PyStr) :
    validate_idempotency_key key = true ↔ ∃ r, parse_idempotency_key key = Except.ok r := by
  unfold validate_idempotency_key
  cases h : parse_idempotency_key key with
  | ok r => simp [h]
  | error m => simp [h]

theorem parse_of_build (t : Int) (et eid evt h16 : PyStr) (ht : 0 < t)
    (hetc : noColon et) (heidc : noColon eid) (h16c : noColon h16) :
    parse_idempotency_key (intToDec t ++ ':' :: (et ++ ':' :: (eid ++ ':' :: (evt ++
        ':' :: h16)))) = Except.ok ⟨t, et, eid, evt, some h16⟩ := by
  have hsplit : splitColon (intToDec t ++ ':' :: (et ++ ':' :: (eid ++ ':' :: (evt ++
      ':' :: h16)))) = intToDec t :: et :: eid :: (splitColon evt ++ [h16]) := by
    rw [splitColon_append_seg _ _ (intToDec_no_colon_pos t ht),
        splitColon_append_seg _ _ hetc,
        splitColon_append_seg _ _ heidc,
        splitColon_append_last _ _ h16c]
  have hpos : 0 < (splitColon evt).length := List.length_pos.mpr (splitColon_ne_nil evt)
  have hlen : 4 < (splitColon (intToDec t ++ ':' :: (et ++ ':' :: (eid ++ ':' :: (evt ++
      ':' :: h16))))).length := by
    rw [hsplit]
    simp only [List.length_cons, List.length_append, List.length_singleton]
    omega
  have hget0 : pythonIntOpt ((splitColon (intToDec t ++ ':' :: (et ++ ':' :: (eid ++
      ':' :: (evt ++ ':' :: h16))))).getD 0 []) = some t := by
    rw [hsplit]
    exact pythonIntOpt_intToDec_pos t ht
  rw [parse_eq_of_long _ t hlen hget0, hsplit]
  simp only [List.getD_cons_succ, List.getD_cons_zero, List.drop_succ_cons, List.drop_zero,
    dropLast_append_single, joinColon_splitColon, List.getLastD_cons, getLastD_append_single]

theorem parse_of_build_simple (t : Int) (et eid evt : PyStr) (ht : 0 < t)
    (hetc : noColon et) (heidc : noColon eid) (hevtc : noColon evt) :
    parse_idempotency_key (intToDec t ++ ':' :: (et ++ ':' :: (eid ++ ':' :: evt))) =
      Except.ok ⟨t, et, eid, evt, none⟩ := by
  have hsplit : splitColon (intToDec t ++ ':' :: (et ++ ':' :: (eid ++ ':' :: evt))) =
      [intToDec t, et, eid, evt] := by
    rw [splitColon_append_seg _ _ (intToDec_no_colon_pos t ht),
        splitColon_append_seg _ _ hetc,
        splitColon_append_seg _ _ heidc,
        splitColon_no_colon evt hevtc]
  have hlen : (splitColon (intToDec t ++ ':' :: (et ++ ':' :: (eid ++
      ':' :: evt)))).length = 4 := by
    rw [hsplit]
    rfl
  have hget0 : pythonIntOpt ((splitColon (intToDec t ++ ':' :: (et ++ ':' :: (eid ++
      ':' :: evt)))).getD 0 []) = some t := by
    rw [hsplit]
    exact pythonIntOpt_intToDec_pos t ht
  rw [parse_eq_of_four _ t hlen hget0, hsplit]
  simp only [List.getD_cons_succ, List.getD_cons_zero]

theorem generate_ok_eq (t : Int) (et eid evt : PyStr) (ts : PyDatetime)
    (ht : 0 < t) (het : pyStrip et ≠ []) (heid : pyStrip eid ≠ []) (hevt : pyStrip evt ≠ []) :
    generate_idempotency_key t et eid evt ts =
      Except.ok (intToDec t ++ ':' :: (et ++ ':' :: (eid ++ ':' :: (evt ++
        ':' :: (sha256hex (utf8Encode (intToDec t ++ ':' :: (eid ++ ':' :: (evt ++
          ':' :: isoformat ts))))).take 16)))) := by
  unfold generate_idempotency_key
  have h1 : ¬ (t ≤ 0) := by omega
  have h2 : ¬ (et = [] ∨ pyStrip et = []) := by
    rintro (rfl | h)
    · exact het rfl
    · exact het h
  have h3 : ¬ (eid = [] ∨ pyStrip eid = []) := by
    rintro (rfl | h)
    · exact heid rfl
    · exact heid h
  have h4 : ¬ (evt = [] ∨ pyStrip evt = []) := by
    rintro (rfl | h)
    · exact hevt rfl
    · exact hevt h
  rw [if_neg h1, if_neg h2, if_neg h3, if_neg h4]

set_option maxRecDepth 100000 in
/-- Development check mirroring the unit test on timestamps: the two example
timestamps of the spec scenario yield different timestamp-qualified keys. -/
theorem generate_example_keys_differ :
    (generate_idempotency_key 1 "order".data "12345".data "orders/create".data dtEx).toOption ≠
      (generate_idempotency_key 1 "order".data "12345".data "orders/create".data
        dtEx2).toOption := by
  decide

/-- C1: a single mark_as_failed call with the default max_retries of 5
increments retry_count by exactly one and records the error message; when the
resulting count reaches 5 the status becomes dead_letter and processed_at is
set to now, otherwise the status becomes failed and processed_at is left
untouched. -/
theorem C1_mark_as_failed_transition (e : Event) (msg : PyStr) (now : Nat) :
    (mark_as_failed e msg 5 now).retry_count = e.retry_count + 1 ∧
    (mark_as_failed e msg 5 now).error_message = some msg ∧
    (e.retry_count + 1 ≥ 5 →
      (mark_as_failed e msg 5 now).status = EventStatus.dead_letter ∧
      (mark_as_failed e msg 5 now).processed_at = some now) ∧
    (e.retry_count + 1 < 5 →
      (mark_as_failed e msg 5 now).status = EventStatus.failed ∧
      (mark_as_failed e msg 5 now).processed_at = e.processed_at) := by
  by_cases h : e.retry_count + 1 ≥ 5
  · refine ⟨by simp [mark_as_failed, h], by simp [mark_as_failed, h],
      fun _ => ⟨by simp [mark_as_failed, h], by simp [mark_as_failed, h]⟩,
      fun hlt => absurd h (by omega)⟩
  · refine ⟨by simp [mark_as_failed, h], by simp [mark_as_failed, h],
      fun hge => absurd hge h,
      fun _ => ⟨by simp [mark_as_failed, h], by simp [mark_as_failed, h]⟩⟩

/-- Witness for C1 at the spec scenario: retry_count 4 marked failed with
message timeout ends with retry_count 5, status dead_letter, processed_at
set. -/
theorem C1_mark_as_failed_transition_witness :
    (mark_as_failed evRetry4 "timeout".data 5 7).retry_count = 5 ∧
    (mark_as_failed evRetry4 "timeout".data 5 7).error_message = some "timeout".data ∧
    (mark_as_failed evRetry4 "timeout".data 5 7).status = EventStatus.dead_letter ∧
    (mark_as_failed evRetry4 "timeout".data 5 7).processed_at = some 7 := by
  obtain ⟨h1, h2, h3, h4⟩ := C1_mark_as_failed_transition evRetry4 "timeout".data 7
  obtain ⟨hs, hp⟩ := h3 (by decide)
  exact ⟨h1.trans (by decide), h2, hs, hp⟩

/-- C6 counterexample: the claim says no operation changes the status of a
terminal record, but mark_as_processing moves a completed record to
processing. -/
theorem C6_counterexample :
    evCompleted.status = EventStatus.completed ∧
    (mark_as_processing evCompleted).status ≠ evCompleted.status := by
  decide

/-- C6 (amended): on a terminal record (completed or dead_letter),
reset_for_retry is a silent no-op that returns the record unchanged rather
than failing, while mark_as_processing and mark_as_failed are unguarded:
mark_as_processing sets the status to processing even from a terminal state
and mark_as_failed still increments retry_count; none of the three
operations signals an error. -/
theorem C6_terminal_unguarded (e : Event)
    (h : e.status = EventStatus.completed ∨ e.status = EventStatus.dead_letter) :
    reset_for_retry e = e ∧
    (mark_as_processing e).status = EventStatus.processing ∧
    (∀ msg now, (mark_as_failed e msg 5 now).retry_count = e.retry_count + 1) := by
  refine ⟨?_, rfl, ?_⟩
  · unfold reset_for_retry
    rcases h with h | h <;> rw [h] <;> simp
  · intro msg now
    by_cases hge : e.retry_count + 1 ≥ 5 <;> simp [mark_as_failed, hge]

/-- Witness for C6 at the dead-letter example record. -/
theorem C6_terminal_unguarded_witness :
    reset_for_retry evDead = evDead ∧
    (mark_as_processing evDead).status = EventStatus.processing ∧
    (mark_as_failed evDead "again".data 5 11).retry_count = evDead.retry_count + 1 := by
  obtain ⟨h1, h2, h3⟩ := C6_terminal_unguarded evDead (by decide)
  exact ⟨h1, h2, h3 "again".data 11⟩

/-- C8: on a failed record, reset_for_retry sets the status to pending and
clears error_message while leaving every other column unchanged; on any
record that is not failed it changes nothing at all. -/
theorem C8_reset_for_retry_frame (e : Event) :
    (e.status = EventStatus.failed →
      (reset_for_retry e).status = EventStatus.pending ∧
      (reset_for_retry e).error_message = none ∧
      (reset_for_retry e).retry_count = e.retry_count ∧
      (reset_for_retry e).payload = e.payload ∧
      (reset_for_retry e).received_at = e.received_at ∧
      (reset_for_retry e).processed_at = e.processed_at ∧
      (reset_for_retry e).tenant_id = e.tenant_id ∧
      (reset_for_retry e).event_type = e.event_type ∧
      (reset_for_retry e).entity_type = e.entity_type ∧
      (reset_for_retry e).entity_id = e.entity_id ∧
      (reset_for_retry e).idempotency_key = e.idempotency_key ∧
      (reset_for_retry e).correlation_id = e.correlation_id) ∧
    (e.status ≠ EventStatus.failed → reset_for_retry e = e) := by
  constructor
  · intro h
    simp [reset_for_retry, h]
  · intro h
    simp [reset_for_retry, h]

/-- Witness for C8: the failed example record is reset, the completed one is
left alone. -/
theorem C8_reset_for_retry_frame_witness :
    (reset_for_retry evFailed7).status = EventStatus.pending ∧
    (reset_for_retry evFailed7).error_message = none ∧
    (reset_for_retry evFailed7).retry_count = evFailed7.retry_count ∧
    (reset_for_retry evFailed7).processed_at = evFailed7.processed_at ∧
    reset_for_retry evCompleted = evCompleted := by
  obtain ⟨h1, _⟩ := C8_reset_for_retry_frame evFailed7
  obtain ⟨hs, he, hr, _, _, hp, _⟩ := h1 (by decide)
  exact ⟨hs, he, hr, hp, (C8_reset_for_retry_frame evCompleted).2 (by decide)⟩

/-- C9: with base delay 5 and ceiling 300, the spec-modelled backoff delay is
non-decreasing over retry counts 0..10 and never exceeds 300. -/
theorem C9_backoff_monotone_bounded :
    (∀ r, r < 10 → calculate_backoff r ≤ calculate_backoff (r + 1)) ∧
    (∀ r, r ≤ 10 → calculate_backoff r ≤ 300) := by
  decide

/-- Witness for C9 at concrete retry counts. -/
theorem C9_backoff_monotone_bounded_witness :
    calculate_backoff 0 ≤ calculate_backoff 1 ∧ calculate_backoff 10 ≤ 300 :=
  ⟨C9_backoff_monotone_bounded.1 0 (by decide), C9_backoff_monotone_bounded.2 10 (by decide)⟩

/-- C10: parse and validate do not enforce non-empty inner segments: the key
1:::x parses successfully with empty entity_type and entity_id and validates
as true, although the timestamp-qualified deriver rejects those very
components as invalid input. -/
theorem C10_parse_is_permissive :
    parse_idempotency_key "1:::x".data = Except.ok ⟨1, [], [], "x".data, none⟩ ∧
    validate_idempotency_key "1:::x".data = true ∧
    generate_idempotency_key 1 [] [] "x".data dtEx =
      Except.error "entity_type cannot be empty".data ∧
    generate_idempotency_key 1 "order".data [] "x".data dtEx =
      Except.error "entity_id cannot be empty".data := by
  exact ⟨rfl, rfl, rfl, rfl⟩

theorem nonblank_not_cond (s : PyStr) (hs : pyStrip s ≠ []) : ¬ (s = [] ∨ pyStrip s = []) := by
  rintro (rfl | h)
  · exact hs rfl
  · exact hs h

/-- C7: the retry-selection query returns exactly the events whose status is
failed and whose retry_count is strictly below the maximum of 5, sorted
oldest-received-first, and never returns a dead_letter event. -/
theorem C7_retry_query (events : List Event) :
    ((get_failed_retriable_events events 5).Perm
      (events.filter (fun e => e.status == EventStatus.failed &&
        decide (e.retry_count < 5)))) ∧
    (∀ e, e ∈ get_failed_retriable_events events 5 ↔
      (e ∈ events ∧ e.status = EventStatus.failed ∧ e.retry_count < 5)) ∧
    List.Sorted eventOrder (get_failed_retriable_events events 5) ∧
    (∀ e ∈ get_failed_retriable_events events 5, e.status ≠ EventStatus.dead_letter) := by
  have hmem : ∀ e, e ∈ get_failed_retriable_events events 5 ↔
      (e ∈ events ∧ e.status = EventStatus.failed ∧ e.retry_count < 5) := by
    intro e
    unfold get_failed_retriable_events
    rw [List.mem_insertionSort, List.mem_filter]
    simp [Bool.and_eq_true, beq_iff_eq, decide_eq_true_eq, and_assoc]
  refine ⟨List.perm_insertionSort eventOrder _, hmem,
    List.sorted_insertionSort eventOrder _, ?_⟩
  intro e he
  rcases (hmem e).mp he with ⟨-, hst, -⟩
  rw [hst]
  decide

/-- Witness for C7 on a concrete four-row table: the in-budget failed events
are selected, the exhausted and dead-letter ones are not, and the result is
sorted by received_at. -/
theorem C7_retry_query_witness :
    evFailed2 ∈ get_failed_retriable_events [evFailed7, evDead, evFailed2, evFailedMax] 5 ∧
    evFailedMax ∉ get_failed_retriable_events [evFailed7, evDead, evFailed2, evFailedMax] 5 ∧
    evDead ∉ get_failed_retriable_events [evFailed7, evDead, evFailed2, evFailedMax] 5 ∧
    List.Sorted eventOrder
      (get_failed_retriable_events [evFailed7, evDead, evFailed2, evFailedMax] 5) := by
  obtain ⟨-, hmem, hsort, -⟩ := C7_retry_query [evFailed7, evDead, evFailed2, evFailedMax]
  refine ⟨(hmem evFailed2).mpr (by decide), ?_, ?_, hsort⟩
  · intro h
    rcases (hmem evFailedMax).mp h with ⟨-, -, hr⟩
    exact absurd hr (by decide)
  · intro h
    rcases (hmem evDead).mp h with ⟨-, hst, -⟩
    exact absurd hst (by decide)

/-- C4 counterexample: the simple deriver performs no validation: with
tenant_id 0, or with every component empty, it returns a key instead of
failing with a ValidationError. -/
theorem C4_counterexample :
    generate_simple_idempotency_key 0 "order".data "12345".data "orders/create".data =
      "0:order:12345:orders/create".data ∧
    (0 : Int) ≤ 0 ∧
    generate_simple_idempotency_key 1 [] [] [] = "1:::".data := by
  refine ⟨rfl, by decide, rfl⟩

/-- C4 (amended): the timestamp-qualified deriver validates tenant_id,
entity_type, entity_id and event_type in that order, failing with the
ValidationError message that names the first offending field, and returns a
key exactly when all inputs are valid; the simple deriver performs no
validation and unconditionally returns the formatted key. -/
theorem C4_validation (t : Int) (et eid evt : PyStr) (ts : PyDatetime) :
    (t ≤ 0 → generate_idempotency_key t et eid evt ts =
      Except.error "tenant_id must be positive".data) ∧
    (0 < t → pyStrip et = [] → generate_idempotency_key t et eid evt ts =
      Except.error "entity_type cannot be empty".data) ∧
    (0 < t → pyStrip et ≠ [] → pyStrip eid = [] → generate_idempotency_key t et eid evt ts =
      Except.error "entity_id cannot be empty".data) ∧
    (0 < t → pyStrip et ≠ [] → pyStrip eid ≠ [] → pyStrip evt = [] →
      generate_idempotency_key t et eid evt ts =
        Except.error "event_type cannot be empty".data) ∧
    (0 < t → pyStrip et ≠ [] → pyStrip eid ≠ [] → pyStrip evt ≠ [] →
      ∃ k, generate_idempotency_key t et eid evt ts = Except.ok k) ∧
    generate_simple_idempotency_key t et eid evt =
      intToDec t ++ ':' :: (et ++ ':' :: (eid ++ ':' :: evt)) := by
  refine ⟨?_, ?_, ?_, ?_, ?_, rfl⟩
  · intro h
    unfold generate_idempotency_key
    rw [if_pos h]
  · intro ht h
    unfold generate_idempotency_key
    rw [if_neg (by omega : ¬ t ≤ 0), if_pos (Or.inr h)]
  · intro ht het h
    unfold generate_idempotency_key
    rw [if_neg (by omega : ¬ t ≤ 0), if_neg (nonblank_not_cond et het), if_pos (Or.inr h)]
  · intro ht het heid h
    unfold generate_idempotency_key
    rw [if_neg (by omega : ¬ t ≤ 0), if_neg (nonblank_not_cond et het),
        if_neg (nonblank_not_cond eid heid), if_pos (Or.inr h)]
  · intro ht het heid hevt
    exact ⟨_, generate_ok_eq t et eid evt ts ht het heid hevt⟩

/-- Witness for C4: the valid example input yields a key, tenant_id 0 yields
the tenant_id error. -/
theorem C4_validation_witness :
    (∃ k, generate_idempotency_key 1 "order".data "12345".data "orders/create".data dtEx =
      Except.ok k) ∧
    generate_idempotency_key 0 "order".data "12345".data "orders/create".data dtEx =
      Except.error "tenant_id must be positive".data := by
  obtain ⟨-, -, -, -, h5, -⟩ :=
    C4_validation 1 "order".data "12345".data "orders/create".data dtEx
  obtain ⟨h1, -⟩ := C4_validation 0 "order".data "12345".data "orders/create".data dtEx
  exact ⟨h5 (by decide) (by decide) (by decide) (by decide), h1 (by decide)⟩

/-- C5 counterexample: the tenant segment -1 does not parse as a positive
integer, yet parse succeeds (the code only applies int(), without a
positivity check) and validate returns true. -/
theorem C5_counterexample :
    parse_idempotency_key "-1:a:b:c".data =
      Except.ok ⟨-1, "a".data, "b".data, "c".data, none⟩ ∧
    validate_idempotency_key "-1:a:b:c".data = true ∧
    (-1 : Int) ≤ 0 := by
  refine ⟨rfl, rfl, by decide⟩

/-- C5 (amended): parse splits on colons and fails with a ValidationError if
there are fewer than 4 segments or the tenant segment does not parse as an
integer (positivity is not checked); with exactly 4 segments it returns the
segments with a null hash; with 5 or more the last segment is the hash and
segments 4 through second-to-last are rejoined with colons as the event
type; validate returns true exactly when parse succeeds. -/
theorem C5_parse_spec (key : PyStr) :
    ((splitColon key).length < 4 →
      parse_idempotency_key key =
        Except.error ("Invalid idempotency key format: ".data ++ key)) ∧
    (¬ (splitColon key).length < 4 → pythonIntOpt ((splitColon key).getD 0 []) = none →
      parse_idempotency_key key =
        Except.error ("Invalid tenant_id in key: ".data ++ (splitColon key).getD 0 [])) ∧
    (∀ t : Int, pythonIntOpt ((splitColon key).getD 0 []) = some t →
      ((splitColon key).length = 4 →
        parse_idempotency_key key = Except.ok ⟨t, (splitColon key).getD 1 [],
          (splitColon key).getD 2 [], (splitColon key).getD 3 [], none⟩) ∧
      (4 < (splitColon key).length →
        parse_idempotency_key key = Except.ok ⟨t, (splitColon key).getD 1 [],
          (splitColon key).getD 2 [], joinColon (((splitColon key).drop 3).dropLast),
          some ((splitColon key).getLastD [])⟩)) ∧
    (validate_idempotency_key key = true ↔ ∃ r, parse_idempotency_key key = Except.ok r) := by
  refine ⟨parse_err_short key, parse_err_badint key, ?_, validate_iff_parse_ok key⟩
  intro t hsome
  exact ⟨fun h4 => parse_eq_of_four key t h4 hsome, fun hgt => parse_eq_of_long key t hgt hsome⟩

/-- Witness for C5: a six-segment key is parsed with the inner segments
rejoined as the event type and the last segment as the hash. -/
theorem C5_parse_spec_witness :
    parse_idempotency_key "1:a:b:c:d:e".data =
      Except.ok ⟨1, "a".data, "b".data, "c:d".data, some "e".data⟩ := by
  obtain ⟨-, -, h3, -⟩ := C5_parse_spec "1:a:b:c:d:e".data
  have h := (h3 1 (by rfl)).2 (by decide)
  rw [h]
  rfl

/-- C2 counterexample: a simple key whose event_type contains a colon does
not round-trip: parsing it back truncates the event_type to its first
segment and reports a non-null hash. -/
theorem C2_counterexample :
    generate_simple_idempotency_key 1 "order".data "12345".data "a:b".data =
      "1:order:12345:a:b".data ∧
    parse_idempotency_key "1:order:12345:a:b".data =
      Except.ok ⟨1, "order".data, "12345".data, "a".data, some "b".data⟩ ∧
    "a".data ≠ "a:b".data := by
  refine ⟨rfl, rfl, by decide⟩

/-- C2 (amended): for valid inputs whose entity_type and entity_id contain no
colon, parsing the timestamp-qualified key recovers tenant_id, entity_type,
entity_id and event_type exactly with a non-null hash, even when event_type
contains colons; the simple-key round-trip, with a null hash, holds when
event_type is also colon-free. -/
theorem C2_roundtrip (t : Int) (et eid evt : PyStr) (ts : PyDatetime)
    (ht : 0 < t) (het : pyStrip et ≠ []) (heid : pyStrip eid ≠ []) (hevt : pyStrip evt ≠ [])
    (hetc : noColon et) (heidc : noColon eid) :
    (∃ k h16, generate_idempotency_key t et eid evt ts = Except.ok k ∧
      parse_idempotency_key k = Except.ok ⟨t, et, eid, evt, some h16⟩) ∧
    (noColon evt →
      parse_idempotency_key (generate_simple_idempotency_key t et eid evt) =
        Except.ok ⟨t, et, eid, evt, none⟩) := by
  constructor
  · refine ⟨_, (sha256hex (utf8Encode (intToDec t ++ ':' :: (eid ++ ':' :: (evt ++
      ':' :: isoformat ts))))).take 16, generate_ok_eq t et eid evt ts ht het heid hevt, ?_⟩
    exact parse_of_build t et eid evt _ ht hetc heidc
      (take_no_colon _ 16 (sha256hex_no_colon _))
  · intro hevtc
    unfold generate_simple_idempotency_key
    exact parse_of_build_simple t et eid evt ht hetc heidc hevtc

/-- Witness for C2 at the spec example inputs: both round-trips hold. -/
theorem C2_roundtrip_witness :
    (∃ k h16, generate_idempotency_key 1 "order".data "12345".data "orders/create".data dtEx =
      Except.ok k ∧ parse_idempotency_key k =
        Except.ok ⟨1, "order".data, "12345".data, "orders/create".data, some h16⟩) ∧
    parse_idempotency_key (generate_simple_idempotency_key 1 "order".data "12345".data
      "orders/create".data) =
      Except.ok ⟨1, "order".data, "12345".data, "orders/create".data, none⟩ := by
  obtain ⟨h1, h2⟩ := C2_roundtrip 1 "order".data "12345".data "orders/create".data dtEx
    (by decide) (by decide) (by decide) (by decide) (by decide) (by decide)
  exact ⟨h1, h2 (by decide)⟩
